import Mathlib

/-!
Shallow embedding of the SEC-filing extraction pipeline
(src/extraction_review_tmp5_classify_sec): the data shapes of schemas.py and
the workflow stages of process_file.py. External collaborators (cloud file
store, parser, classifier, extraction agents, agent-data store) are modelled
as oracle functions bundled in a Behaviors record; the effects of a run
(local filesystem, durable record storage, progress toasts) are explicit
state threaded through the stage functions. Ghost call logs (classifyCalls,
extractCalls) record which collaborator calls a stage made.
-/

namespace ClassifySec

/-- File contents, modelled as byte strings. -/
abbrev Bytes := String

/-- Errors raised inside a stage: the explicit
ValueError raised by extract_data_based_on_type on an unknown document type,
and arbitrary exceptions raised by collaborator calls. -/
inductive Err where
  | valueError (msg : String)
  | exn (msg : String)
deriving DecidableEq, Repr

/-- The message text of an error, as interpolated into error toasts. -/
def Err.text : Err → String
  | .valueError m => m
  | .exn m => m

instance exceptDecidableEq {ε α : Type} [DecidableEq ε] [DecidableEq α] :
    DecidableEq (Except ε α)
  | .ok a, .ok b =>
    if h : a = b then .isTrue (by rw [h]) else .isFalse (by simp [h])
  | .ok _, .error _ => .isFalse (by simp)
  | .error _, .ok _ => .isFalse (by simp)
  | .error e, .error f =>
    if h : e = f then .isTrue (by rw [h]) else .isFalse (by simp [h])

/-- Severity of a progress toast (UIToast.level in process_file.py). -/
inductive Level where
  | info
  | warning
  | error
deriving DecidableEq, Repr

/-- UIToast event from process_file.py: a progress message for the UI. -/
structure UIToast where
  level : Level
  message : String
deriving DecidableEq, Repr

/-- Form10KData from schemas.py. -/
structure Form10KData where
  total_revenue : Option String := none
  net_income : Option String := none
  total_assets : Option String := none
  total_liabilities : Option String := none
deriving DecidableEq, Repr

/-- Form10QData from schemas.py. -/
structure Form10QData where
  quarterly_revenue : Option String := none
  quarterly_net_income : Option String := none
  total_assets : Option String := none
  total_liabilities : Option String := none
deriving DecidableEq, Repr

/-- Event8K from schemas.py. -/
structure Event8K where
  category : Option String := none
  description : Option String := none
deriving DecidableEq, Repr

/-- Form8KData from schemas.py. -/
structure Form8KData where
  events : Option (List Event8K) := none
deriving DecidableEq, Repr

/-- MySchema from schemas.py: the final output schema with one payload slot
per document type. -/
structure MySchema where
  document_type : Option String := none
  form_10k_data : Option Form10KData := none
  form_10q_data : Option Form10QData := none
  form_8k_data : Option Form8KData := none
deriving DecidableEq, Repr

/-- The ExtractedData container (llama_cloud_services agent-data API) as the
code uses it: the typed payload plus the file identity and content hash
passed to ExtractedData.create in extract_data_based_on_type. -/
structure ExtractedData where
  data : MySchema
  file_id : String
  file_name : String
  file_hash : String
deriving DecidableEq, Repr

/-- FileEvent (the workflow start event). -/
structure FileEvent where
  file_id : String
deriving DecidableEq, Repr

/-- DownloadFileEvent. -/
structure DownloadFileEvent where
  file_id : String
deriving DecidableEq, Repr

/-- FileDownloadedEvent. -/
structure FileDownloadedEvent where
  file_id : String
  file_path : String
  filename : String
deriving DecidableEq, Repr

/-- FileParsedEvent. -/
structure FileParsedEvent where
  file_id : String
  file_path : String
  filename : String
  markdown_content : String
deriving DecidableEq, Repr

/-- FileClassifiedEvent. Confidence is modelled as a rational number. -/
structure FileClassifiedEvent where
  file_id : String
  file_path : String
  filename : String
  markdown_content : String
  document_type : String
  confidence : Rat
deriving DecidableEq, Repr

/-- ExtractedEvent, carrying the ExtractedData container. -/
structure ExtractedEvent where
  data : ExtractedData
deriving DecidableEq, Repr

/-- ClassifierRule from llama_cloud.types as used by classify_document:
a type tag plus a human-readable description. -/
structure ClassifierRule where
  type : String
  description : String
deriving DecidableEq, Repr

/-- The single classification result consumed by classify_document
(classification_result.items[0].result): a type tag and an optional
confidence score. -/
structure ClassifyOutcome where
  type : String
  confidence : Option Rat
deriving DecidableEq, Repr

/-- SourceText passed to the extraction agents. -/
structure SourceText where
  text_content : String
  filename : String
deriving DecidableEq, Repr

/-- One record held by the agent-data storage collaborator: an assigned id
plus the stored ExtractedData. -/
structure StoredItem where
  id : Nat
  data : ExtractedData
deriving DecidableEq, Repr

/-- The mutable state of a pipeline run: the local filesystem (path to byte
content), the durable record storage, the emitted progress toasts, and two
ghost logs recording the classifier calls (with the rule list passed) and
the extraction-agent calls (by document type tag) actually made. -/
structure PState where
  fs : List (String × Bytes)
  storage : List StoredItem
  toasts : List UIToast
  classifyCalls : List (List ClassifierRule)
  extractCalls : List String
deriving DecidableEq, Repr

/-- Write a file: overwrites any previous content at the path. -/
def fsWrite (fs : List (String × Bytes)) (p : String) (c : Bytes) :
    List (String × Bytes) :=
  (p, c) :: fs.filter (fun x => !(x.1 == p))

/-- Remove a file at a path (Path.unlink). -/
def fsUnlink (fs : List (String × Bytes)) (p : String) : List (String × Bytes) :=
  fs.filter (fun x => !(x.1 == p))

/-- Read a file's bytes, none when the path does not exist. -/
def fsRead (fs : List (String × Bytes)) (p : String) : Option Bytes :=
  (fs.find? (fun x => x.1 == p)).map Prod.snd

/-- A progress-emission function: how ctx.write_event_to_stream acts on the
run state. The pipeline instantiates it with emitToast. -/
abbrev Emit := UIToast → PState → PState

/-- The real emitter: appends the toast to the stream log. -/
def emitToast : Emit := fun t st => { st with toasts := st.toasts ++ [t] }

/-- The external collaborators of process_file.py as deterministic oracles:
cloud file metadata and content URL lookup, HTTP byte fetch, LlamaParse,
the classifier (receiving the rule list and the scratch-file path), the
fresh scratch-file name chosen by NamedTemporaryFile, the three extraction
agents with their pydantic validations, the agent-data delete and create
calls (create receives the current storage and yields the new item id),
the sha256 hex digest, and the temp directory. -/
structure Behaviors where
  get_file : String → Except Err String
  read_file_content : String → Except Err String
  httpGet : String → Except Err Bytes
  aparse : String → Except Err String
  aclassify : List ClassifierRule → String → Except Err ClassifyOutcome
  tmpName : String
  aextract_10k : SourceText → Except Err String
  validate_10k : String → Except Err Form10KData
  aextract_10q : SourceText → Except Err String
  validate_10q : String → Except Err Form10QData
  aextract_8k : SourceText → Except Err String
  validate_8k : String → Except Err Form8KData
  delete_item : Nat → Except Err Unit
  create_item : List StoredItem → Except Err Nat
  sha256Hex : Bytes → String
  tempDir : String

/-- Step run_file: wraps the start event into a DownloadFileEvent. -/
def run_file (ev : FileEvent) : DownloadFileEvent :=
  ⟨ev.file_id⟩

/-- Step download_file: resolve metadata and URL, emit a progress toast,
stream the bytes to tempDir/filename; on any failure emit an error toast
and re-raise. -/
def download_file (emit : Emit) (B : Behaviors) (ev : DownloadFileEvent)
    (st : PState) : Except Err FileDownloadedEvent × PState :=
  match B.get_file ev.file_id with
  | .error e =>
    (.error e,
     emit ⟨.error, "Error downloading file " ++ ev.file_id ++ ": " ++ e.text⟩ st)
  | .ok filename =>
    match B.read_file_content ev.file_id with
    | .error e =>
      (.error e,
       emit ⟨.error, "Error downloading file " ++ ev.file_id ++ ": " ++ e.text⟩ st)
    | .ok url =>
      let file_path := B.tempDir ++ "/" ++ filename
      let st1 := emit ⟨.info, "Downloading file " ++ filename⟩ st
      match B.httpGet url with
      | .error e =>
        (.error e,
         emit ⟨.error, "Error downloading file " ++ ev.file_id ++ ": " ++ e.text⟩ st1)
      | .ok content =>
        (.ok ⟨ev.file_id, file_path, filename⟩,
         { st1 with fs := fsWrite st1.fs file_path content })

/-- Step parse_document: emit a toast, call the parser on the local path,
emit a success toast; on failure emit an error toast and re-raise. -/
def parse_document (emit : Emit) (B : Behaviors) (ev : FileDownloadedEvent)
    (st : PState) : Except Err FileParsedEvent × PState :=
  let st1 := emit ⟨.info, "Parsing document " ++ ev.filename⟩ st
  match B.aparse ev.file_path with
  | .error e =>
    (.error e,
     emit ⟨.error, "Error parsing document " ++ ev.filename ++ ": " ++ e.text⟩ st1)
  | .ok markdown_content =>
    (.ok ⟨ev.file_id, ev.file_path, ev.filename, markdown_content⟩,
     emit ⟨.info, "Successfully parsed document " ++ ev.filename⟩ st1)

/-- The fixed classification rule list built on every call of
classify_document (process_file.py lines 181 to 194), with the source's
exact type tags and descriptions in the source's order. -/
def rules : List ClassifierRule :=
  [⟨"10-q",
    "Annual report filed by publicly traded companies, containing comprehensive financial information including audited annual financial statements, total revenue, net income, total assets, and total liabilities for the fiscal year. Typically labeled as Form 10-K or 10-K Annual Report."⟩,
   ⟨"10-k",
    "Quarterly report filed by publicly traded companies, containing unaudited financial statements for a specific quarter including quarterly revenue, quarterly net income, total assets, and total liabilities. Typically labeled as Form 10-Q or 10-Q Quarterly Report."⟩,
   ⟨"8-k",
    "Current report filed by publicly traded companies to announce major events or material changes, such as acquisitions, executive changes, earnings announcements, or other significant corporate events. Contains event descriptions organized by Item numbers (e.g., Item 1.01, Item 2.02). Typically labeled as Form 8-K or 8-K Current Report."⟩]

/-- Step classify_document: emit a toast, write the markdown to a fresh
scratch .md file, call the classifier with the fixed rule list and that
path, default the confidence to 0 when absent, emit a success toast, and
unlink the scratch file in a finally block (so also when the classifier
call raises, before the error toast of the except block). The ghost
classifyCalls log records the rule list passed to the classifier. -/
def classify_document (emit : Emit) (B : Behaviors) (ev : FileParsedEvent)
    (st : PState) : Except Err FileClassifiedEvent × PState :=
  let st1 := emit ⟨.info, "Classifying document " ++ ev.filename⟩ st
  let temp_path := B.tmpName
  let st2 := { st1 with fs := fsWrite st1.fs temp_path ev.markdown_content }
  let st3 := { st2 with classifyCalls := st2.classifyCalls ++ [rules] }
  match B.aclassify rules temp_path with
  | .error e =>
    let st4 := { st3 with fs := fsUnlink st3.fs temp_path }
    (.error e,
     emit ⟨.error, "Error classifying document " ++ ev.filename ++ ": " ++ e.text⟩ st4)
  | .ok result =>
    let document_type := result.type
    let confidence := result.confidence.getD 0
    let st4 := emit ⟨.info, "Document classified as " ++ document_type⟩ st3
    let st5 := { st4 with fs := fsUnlink st4.fs temp_path }
    (.ok ⟨ev.file_id, ev.file_path, ev.filename, ev.markdown_content,
          document_type, confidence⟩,
     st5)

/-- Step extract_data_based_on_type: read the downloaded bytes and hash
them, emit a toast, then branch strictly on document_type: each recognized
tag calls its own extraction agent and validation and populates exactly its
own payload slot of MySchema; any other tag raises
ValueError "Unknown document type: ...". On any failure an error toast is
emitted and the error re-raised. The ghost extractCalls log records which
extraction agent was invoked. -/
def extract_data_based_on_type (emit : Emit) (B : Behaviors)
    (ev : FileClassifiedEvent) (st : PState) :
    Except Err ExtractedEvent × PState :=
  match fsRead st.fs ev.file_path with
  | none =>
    (.error (.exn "file not found"),
     emit ⟨.error, "Error extracting data from file " ++ ev.filename
            ++ ": file not found"⟩ st)
  | some file_content =>
    let file_hash := B.sha256Hex file_content
    let source_text : SourceText := ⟨ev.markdown_content, ev.filename⟩
    let st1 := emit ⟨.info, "Extracting data from " ++ ev.document_type
                      ++ " filing: " ++ ev.filename⟩ st
    if ev.document_type = "10-k" then
      let st2 := { st1 with extractCalls := st1.extractCalls ++ ["10-k"] }
      match B.aextract_10k source_text with
      | .error e =>
        (.error e,
         emit ⟨.error, "Error extracting data from file " ++ ev.filename
                ++ ": " ++ e.text⟩ st2)
      | .ok raw =>
        match B.validate_10k raw with
        | .error e =>
          (.error e,
           emit ⟨.error, "Error extracting data from file " ++ ev.filename
                  ++ ": " ++ e.text⟩ st2)
        | .ok form_10k_data =>
          let final_data : MySchema :=
            ⟨some ev.document_type, some form_10k_data, none, none⟩
          (.ok ⟨⟨final_data, ev.file_id, ev.filename, file_hash⟩⟩,
           emit ⟨.info, "Successfully extracted data from " ++ ev.document_type
                  ++ " filing"⟩ st2)
    else if ev.document_type = "10-q" then
      let st2 := { st1 with extractCalls := st1.extractCalls ++ ["10-q"] }
      match B.aextract_10q source_text with
      | .error e =>
        (.error e,
         emit ⟨.error, "Error extracting data from file " ++ ev.filename
                ++ ": " ++ e.text⟩ st2)
      | .ok raw =>
        match B.validate_10q raw with
        | .error e =>
          (.error e,
           emit ⟨.error, "Error extracting data from file " ++ ev.filename
                  ++ ": " ++ e.text⟩ st2)
        | .ok form_10q_data =>
          let final_data : MySchema :=
            ⟨some ev.document_type, none, some form_10q_data, none⟩
          (.ok ⟨⟨final_data, ev.file_id, ev.filename, file_hash⟩⟩,
           emit ⟨.info, "Successfully extracted data from " ++ ev.document_type
                  ++ " filing"⟩ st2)
    else if ev.document_type = "8-k" then
      let st2 := { st1 with extractCalls := st1.extractCalls ++ ["8-k"] }
      match B.aextract_8k source_text with
      | .error e =>
        (.error e,
         emit ⟨.error, "Error extracting data from file " ++ ev.filename
                ++ ": " ++ e.text⟩ st2)
      | .ok raw =>
        match B.validate_8k raw with
        | .error e =>
          (.error e,
           emit ⟨.error, "Error extracting data from file " ++ ev.filename
                  ++ ": " ++ e.text⟩ st2)
        | .ok form_8k_data =>
          let final_data : MySchema :=
            ⟨some ev.document_type, none, none, some form_8k_data⟩
          (.ok ⟨⟨final_data, ev.file_id, ev.filename, file_hash⟩⟩,
           emit ⟨.info, "Successfully extracted data from " ++ ev.document_type
                  ++ " filing"⟩ st2)
    else
      (.error (.valueError ("Unknown document type: " ++ ev.document_type)),
       emit ⟨.error, "Error extracting data from file " ++ ev.filename
              ++ ": Unknown document type: " ++ ev.document_type⟩ st1)

/-- The deletions of record_extracted_data: delete each found prior item via
the storage collaborator. The source fires them with asyncio.gather; they
are modelled sequentially, a failing deletion aborting with the items
deleted so far removed from storage. -/
def runDeletes (B : Behaviors) :
    List StoredItem → List StoredItem → Option Err × List StoredItem
  | storage, [] => (none, storage)
  | storage, item :: rest =>
    match B.delete_item item.id with
    | .error e => (some e, storage)
    | .ok _ => runDeletes B (storage.filter fun x => !(x.id == item.id)) rest

/-- Step record_extracted_data: emit a toast; when the record's file_hash is
non-empty (Python truthiness of the hash string), search storage for all
items with that hash, delete every one found, then insert the new record
and return its assigned id. On any failure an error toast is emitted and
the error re-raised; a failure after the deletions does not restore the
deleted items. -/
def record_extracted_data (emit : Emit) (B : Behaviors) (ev : ExtractedEvent)
    (st : PState) : Except Err Nat × PState :=
  let st1 := emit ⟨.info, "Recorded extracted data for file " ++ ev.data.file_name⟩ st
  if ev.data.file_hash = "" then
    match B.create_item st1.storage with
    | .error e =>
      (.error e,
       emit ⟨.error, "Error recording extracted data for file "
              ++ ev.data.file_name ++ ": " ++ e.text⟩ st1)
    | .ok id =>
      (.ok id, { st1 with storage := ⟨id, ev.data⟩ :: st1.storage })
  else
    let existing :=
      st1.storage.filter (fun item => item.data.file_hash == ev.data.file_hash)
    match runDeletes B st1.storage existing with
    | (some e, storage1) =>
      (.error e,
       emit ⟨.error, "Error recording extracted data for file "
              ++ ev.data.file_name ++ ": " ++ e.text⟩
         { st1 with storage := storage1 })
    | (none, storage1) =>
      match B.create_item storage1 with
      | .error e =>
        (.error e,
         emit ⟨.error, "Error recording extracted data for file "
                ++ ev.data.file_name ++ ": " ++ e.text⟩
           { st1 with storage := storage1 })
      | .ok id =>
        (.ok id, { st1 with storage := ⟨id, ev.data⟩ :: storage1 })

/-- The retry wrapper the workflow framework applies around each step, for
deterministic per-attempt behavior: up to n invocations of the stage,
stopping at the first success, returning the last attempt's error when all
fail; failed attempts keep their state effects (re-emitted toasts). -/
def retryStage {α : Type} (n : Nat) (g : PState → Except Err α × PState)
    (st : PState) : Except Err α × PState :=
  match n with
  | 0 => g st
  | 1 => g st
  | k + 2 =>
    match g st with
    | (.ok a, st1) => (.ok a, st1)
    | (.error _, st1) => retryStage (k + 1) g st1

/-- Terminal outcome of a run: Completed with the stored record id, or
Failed with the terminal error of the stage that exhausted its retries. -/
inductive RunResult where
  | completed (record_id : Nat)
  | failed (e : Err)
deriving DecidableEq, Repr

/-- The orchestrator's dispatch of one retried step result: a step error
exhausting its retries ends the run Failed with that error; a step success
feeds the produced event to the rest of the pipeline. -/
def stepThen {α : Type} (r : Except Err α × PState)
    (k : α → PState → RunResult × PState) : RunResult × PState :=
  match r with
  | (.error e, st) => (.failed e, st)
  | (.ok a, st) => k a st

/-- The pipeline orchestrator: the linear chain of steps of
ProcessFileWorkflow, each wrapped in the 3-attempt retry, stopping at the
first stage whose retries are exhausted. -/
def runPipeline (emit : Emit) (B : Behaviors) (file_id : String)
    (st : PState) : RunResult × PState :=
  let ev1 := run_file ⟨file_id⟩
  stepThen (retryStage 3 (download_file emit B ev1) st) fun ev2 st =>
  stepThen (retryStage 3 (parse_document emit B ev2) st) fun ev3 st =>
  stepThen (retryStage 3 (classify_document emit B ev3) st) fun ev4 st =>
  stepThen (retryStage 3 (extract_data_based_on_type emit B ev4) st) fun ev5 st =>
  stepThen (retryStage 3 (record_extracted_data emit B ev5) st) fun id st =>
  (.completed id, st)

/-- The retry policy configuration attached to each step decorator. -/
structure ConstantDelayRetryPolicy where
  maximum_attempts : Nat
  delay : Nat
deriving DecidableEq, Repr

/-- Policy of step run_file (process_file.py line 80). -/
def run_file_policy : ConstantDelayRetryPolicy := ⟨3, 10⟩

/-- Policy of step download_file (line 85). -/
def download_file_policy : ConstantDelayRetryPolicy := ⟨3, 10⟩

/-- Policy of step parse_document (line 128). -/
def parse_document_policy : ConstantDelayRetryPolicy := ⟨3, 10⟩

/-- Policy of step classify_document (line 167). -/
def classify_document_policy : ConstantDelayRetryPolicy := ⟨3, 10⟩

/-- Policy of step extract_data_based_on_type (line 247). -/
def extract_data_based_on_type_policy : ConstantDelayRetryPolicy := ⟨3, 10⟩

/-- Policy of step record_extracted_data (line 351). -/
def record_extracted_data_policy : ConstantDelayRetryPolicy := ⟨3, 10⟩

/-- The retry policies of all six steps, in pipeline order. -/
def stepPolicies : List ConstantDelayRetryPolicy :=
  [run_file_policy, download_file_policy, parse_document_policy,
   classify_document_policy, extract_data_based_on_type_policy,
   record_extracted_data_policy]

/-- Modelled from the spec: the re-invocation schedule of the workflows
library's constant-delay retry wrapper (the library implementation is not
part of this repository). Given the outcome of each attempt (f i is the
i-th attempt, counting from attempt index i), run up to the given number of
attempts, waiting the fixed delay between attempts; the returned list is
the sequence of delays actually waited. -/
def retryGo {α : Type} (f : Nat → Except Err α) (d : Nat) :
    Nat → Nat → Except Err α × List Nat
  | i, 0 => (f i, [])
  | i, 1 => (f i, [])
  | i, k + 2 =>
    match f i with
    | .ok a => (.ok a, [])
    | .error _ =>
      let r := retryGo f d (i + 1) (k + 1)
      (r.1, d :: r.2)

/-- Modelled from the spec: run a stage operation under a
ConstantDelayRetryPolicy, yielding its result (the first success, or the
last attempt's error when all attempts fail) and the delays waited. -/
def retryRun {α : Type} (pol : ConstantDelayRetryPolicy)
    (f : Nat → Except Err α) : Except Err α × List Nat :=
  retryGo f pol.delay 0 pol.maximum_attempts

/-- Equality of run states up to the toast stream: same filesystem, same
storage, same ghost call logs. -/
def CoreEq (s t : PState) : Prop :=
  s.fs = t.fs ∧ s.storage = t.storage ∧
  s.classifyCalls = t.classifyCalls ∧ s.extractCalls = t.extractCalls

/-- An emission function that at most changes the toast stream. -/
def ToastOnly (emit : Emit) : Prop :=
  ∀ t s, CoreEq (emit t s) s

/-- A record as stored by a first processing run of some byte content with
fingerprint "h1". -/
def c1Old : ExtractedData :=
  ⟨⟨some "10-k", some {}, none, none⟩, "f1", "doc.pdf", "h1"⟩

/-- The record produced by re-processing the same byte content under the
new file identifier "f2": same fingerprint "h1". -/
def c1New : ExtractedData :=
  ⟨⟨some "10-k", some ⟨some "100M", some "10M", some "500M", some "300M"⟩,
    none, none⟩, "f2", "doc.pdf", "h1"⟩

/-- Concrete collaborator behaviors for a successful Record stage run:
deletions succeed and the insert is assigned id 5. -/
def c1B : Behaviors where
  get_file := fun _ => .ok "doc.pdf"
  read_file_content := fun _ => .ok "u"
  httpGet := fun _ => .ok "PDFBYTES"
  aparse := fun _ => .ok "md"
  aclassify := fun _ _ => .ok ⟨"10-k", none⟩
  tmpName := "/tmp/scratch.md"
  aextract_10k := fun _ => .ok "raw"
  validate_10k := fun _ => .ok {}
  aextract_10q := fun _ => .ok "raw"
  validate_10q := fun _ => .ok {}
  aextract_8k := fun _ => .ok "raw"
  validate_8k := fun _ => .ok {}
  delete_item := fun _ => .ok ()
  create_item := fun _ => .ok 5
  sha256Hex := fun _ => "h1"
  tempDir := "/tmp"

/-- Storage already holding the record of the first run for fingerprint
"h1". -/
def c1St : PState := ⟨[], [⟨3, c1Old⟩], [], [], []⟩

/-- The Record-stage input event of the second run. -/
def c1Ev : ExtractedEvent := ⟨c1New⟩

/-- Concrete collaborator behaviors whose create_item call raises after the
deletions succeeded. -/
def c6B : Behaviors where
  get_file := fun _ => .ok "doc.pdf"
  read_file_content := fun _ => .ok "u"
  httpGet := fun _ => .ok "PDFBYTES"
  aparse := fun _ => .ok "md"
  aclassify := fun _ _ => .ok ⟨"10-k", none⟩
  tmpName := "/tmp/scratch.md"
  aextract_10k := fun _ => .ok "raw"
  validate_10k := fun _ => .ok {}
  aextract_10q := fun _ => .ok "raw"
  validate_10q := fun _ => .ok {}
  aextract_8k := fun _ => .ok "raw"
  validate_8k := fun _ => .ok {}
  delete_item := fun _ => .ok ()
  create_item := fun _ => .error (.exn "create failed")
  sha256Hex := fun _ => "h1"
  tempDir := "/tmp"

/-- Storage holding exactly one record for fingerprint "h1" before the
failing Record-stage attempt. -/
def c6St : PState := ⟨[], [⟨3, c1Old⟩], [], [], []⟩

/-- The Record-stage input event of the failing attempt: same fingerprint
"h1". -/
def c6Ev : ExtractedEvent := ⟨c1New⟩

/-- Behaviors whose classifier returns the unrecognized label
"unknown-form". -/
def c2B : Behaviors :=
  { c1B with aclassify := fun _ _ => .ok ⟨"unknown-form", some 1⟩ }

/-- A concrete parsed event for the Classify-stage witness. -/
def c9Ev : FileParsedEvent := ⟨"f1", "/tmp/doc.pdf", "doc.pdf", "md"⟩

/-- The classified event c1B's classifier (confidence absent) produces. -/
def c9Out : FileClassifiedEvent := ⟨"f1", "/tmp/doc.pdf", "doc.pdf", "md", "10-k", 0⟩

/-- A concrete classified event with document type "10-q". -/
def c5Ev : FileClassifiedEvent := ⟨"f1", "/tmp/doc.pdf", "doc.pdf", "md", "10-q", 0⟩

/-- A run state whose filesystem holds the downloaded file. -/
def c5St : PState := ⟨[("/tmp/doc.pdf", "PDFBYTES")], [], [], [], []⟩

/-- The extracted event the Extract stage produces from c5Ev under c1B. -/
def c5Out : ExtractedEvent :=
  ⟨⟨⟨some "10-q", none, some {}, none⟩, "f1", "doc.pdf", "h1"⟩⟩

set_option maxRecDepth 8000

theorem fsRead_fsUnlink_self (l : List (String × Bytes)) (p : String) :
    fsRead (fsUnlink l p) p = none := by
  simp only [fsRead, fsUnlink, Option.map_eq_none']
  rw [List.find?_eq_none]
  intro x hx
  simp only [List.mem_filter, Bool.not_eq_true'] at hx
  simp [hx.2]

theorem fsRead_fsUnlink_other (l : List (String × Bytes)) (p q : String)
    (h : q ≠ p) : fsRead (fsUnlink l p) q = fsRead l q := by
  simp only [fsRead, fsUnlink, List.find?_filter]
  have hpe : (fun a : String × Bytes =>
        decide ((!(a.1 == p)) = true ∧ (a.1 == q) = true))
      = fun a : String × Bytes => a.1 == q := by
    funext a
    by_cases ha : a.1 = q
    · simp [ha, h]
    · simp [ha]
  rw [hpe]

theorem fsRead_fsWrite_self (l : List (String × Bytes)) (p : String) (c : Bytes) :
    fsRead (fsWrite l p c) p = some c := by
  simp [fsRead, fsWrite, List.find?_cons]

theorem fsRead_fsWrite_other (l : List (String × Bytes)) (p q : String)
    (c : Bytes) (h : q ≠ p) : fsRead (fsWrite l p c) q = fsRead l q := by
  have hpq : (p == q) = false := by simp [Ne.symm h]
  have hu := fsRead_fsUnlink_other l p q h
  simp only [fsRead, fsUnlink] at hu
  simp only [fsRead, fsWrite, List.find?_cons, hpq]
  exact hu

/-- Claim C4: on every invocation the Classify stage passes the classifier
the same fixed, ordered rule list with type tags "10-q", "10-k", "8-k" in
that order, and the descriptions for the 10-K and 10-Q tags are swapped:
the rule tagged "10-q" carries the annual-report (Form 10-K) description
and the rule tagged "10-k" carries the quarterly-report (Form 10-Q)
description. -/
theorem classify_rules_fixed_and_descriptions_swapped :
    (∀ (B : Behaviors) (ev : FileParsedEvent) (st : PState),
        ((classify_document emitToast B ev st).2).classifyCalls
          = st.classifyCalls ++ [rules]) ∧
    rules.map ClassifierRule.type = ["10-q", "10-k", "8-k"] ∧
    (rules.map fun r => "Annual report".data.isPrefixOf r.description.data)
      = [true, false, false] ∧
    (rules.map fun r => "Quarterly report".data.isPrefixOf r.description.data)
      = [false, true, false] ∧
    (rules.map fun r => "Current report".data.isPrefixOf r.description.data)
      = [false, false, true] := by
  refine ⟨?_, by decide, by decide, by decide, by decide⟩
  intro B ev st
  cases h : B.aclassify rules B.tmpName <;>
    simp [classify_document, emitToast, h]

/-- Claim C8: the scratch .md file written by the Classify stage is absent
from the filesystem after the stage, on every exit path, both when the
classifier call succeeds and when it fails. -/
theorem classify_scratch_file_removed_on_every_exit
    (B : Behaviors) (ev : FileParsedEvent) (st : PState) :
    fsRead ((classify_document emitToast B ev st).2).fs B.tmpName = none := by
  cases h : B.aclassify rules B.tmpName <;>
    simp [classify_document, emitToast, h, fsRead_fsUnlink_self]

/-- Claim C9: the Classify stage sets the downstream confidence to the
classifier's confidence defaulted to 0 when absent; in particular, when the
classifier omits the confidence, the classified event carries confidence 0
(and the field is total, never null, by type). -/
theorem classify_confidence_defaults_to_zero :
    ∀ (B : Behaviors) (ev : FileParsedEvent) (st : PState)
      (out : ClassifyOutcome) (ev1 : FileClassifiedEvent) (st1 : PState),
      B.aclassify rules B.tmpName = .ok out →
      classify_document emitToast B ev st = (.ok ev1, st1) →
      ev1.confidence = out.confidence.getD 0 ∧
        (out.confidence = none → ev1.confidence = 0) := by
  intro B ev st out ev1 st1 h1 h2
  simp only [classify_document, h1, Prod.mk.injEq, Except.ok.injEq] at h2
  obtain ⟨hev, -⟩ := h2
  subst hev
  exact ⟨rfl, fun hc => by simp [hc]⟩

/-- Concrete witness for claim C9: a classifier outcome with an absent
confidence yields a classified event with confidence 0. -/
theorem classify_confidence_defaults_to_zero_witness :
    c9Out.confidence = ((⟨"10-k", none⟩ : ClassifyOutcome).confidence).getD 0 ∧
      ((⟨"10-k", none⟩ : ClassifyOutcome).confidence = none →
        c9Out.confidence = 0) :=
  classify_confidence_defaults_to_zero c1B c9Ev c1St ⟨"10-k", none⟩ c9Out
    ((classify_document emitToast c1B c9Ev c1St).2) (by decide) (by decide)

/-- Claim C5: every record the Extract stage produces populates exactly the
payload slot matching the event's document type; the other two slots are
none, and the record's document_type field carries that type. -/
theorem extract_populates_exactly_matching_slot :
    ∀ (B : Behaviors) (ev : FileClassifiedEvent) (st : PState)
      (ev1 : ExtractedEvent) (st1 : PState),
      extract_data_based_on_type emitToast B ev st = (.ok ev1, st1) →
      ev1.data.data.document_type = some ev.document_type ∧
      ev1.data.data.form_10k_data.isSome = (ev.document_type == "10-k") ∧
      ev1.data.data.form_10q_data.isSome = (ev.document_type == "10-q") ∧
      ev1.data.data.form_8k_data.isSome = (ev.document_type == "8-k") ∧
      ev1.data.data.form_10k_data.isSome.toNat
        + ev1.data.data.form_10q_data.isSome.toNat
        + ev1.data.data.form_8k_data.isSome.toNat = 1 := by
  intro B ev st ev1 st1 h
  cases hr : fsRead st.fs ev.file_path with
  | none => simp [extract_data_based_on_type, hr] at h
  | some c =>
    by_cases h1 : ev.document_type = "10-k"
    · cases he : B.aextract_10k ⟨ev.markdown_content, ev.filename⟩ with
      | error e => simp [extract_data_based_on_type, hr, h1, he] at h
      | ok raw =>
        cases hv : B.validate_10k raw with
        | error e => simp [extract_data_based_on_type, hr, h1, he, hv] at h
        | ok form =>
          simp [extract_data_based_on_type, hr, h1, he, hv] at h
          obtain ⟨hev, -⟩ := h
          subst hev
          simp [h1]
    · by_cases h2 : ev.document_type = "10-q"
      · cases he : B.aextract_10q ⟨ev.markdown_content, ev.filename⟩ with
        | error e => simp [extract_data_based_on_type, hr, h1, h2, he] at h
        | ok raw =>
          cases hv : B.validate_10q raw with
          | error e => simp [extract_data_based_on_type, hr, h1, h2, he, hv] at h
          | ok form =>
            simp [extract_data_based_on_type, hr, h1, h2, he, hv] at h
            obtain ⟨hev, -⟩ := h
            subst hev
            simp [h1, h2]
      · by_cases h3 : ev.document_type = "8-k"
        · cases he : B.aextract_8k ⟨ev.markdown_content, ev.filename⟩ with
          | error e => simp [extract_data_based_on_type, hr, h1, h2, h3, he] at h
          | ok raw =>
            cases hv : B.validate_8k raw with
            | error e =>
              simp [extract_data_based_on_type, hr, h1, h2, h3, he, hv] at h
            | ok form =>
              simp [extract_data_based_on_type, hr, h1, h2, h3, he, hv] at h
              obtain ⟨hev, -⟩ := h
              subst hev
              simp [h1, h2, h3]
        · simp [extract_data_based_on_type, hr, h1, h2, h3] at h

/-- Concrete witness for claim C5: a successful 10-Q extraction populates
only the 10-Q slot. -/
theorem extract_populates_exactly_matching_slot_witness :
    c5Out.data.data.document_type = some c5Ev.document_type ∧
    c5Out.data.data.form_10k_data.isSome = (c5Ev.document_type == "10-k") ∧
    c5Out.data.data.form_10q_data.isSome = (c5Ev.document_type == "10-q") ∧
    c5Out.data.data.form_8k_data.isSome = (c5Ev.document_type == "8-k") ∧
    c5Out.data.data.form_10k_data.isSome.toNat
      + c5Out.data.data.form_10q_data.isSome.toNat
      + c5Out.data.data.form_8k_data.isSome.toNat = 1 :=
  extract_populates_exactly_matching_slot c1B c5Ev c5St c5Out
    ((extract_data_based_on_type emitToast c1B c5Ev c5St).2) (by decide)

theorem runDeletes_clears (B : Behaviors) (h : String) :
    ∀ (toDel storage storage1 : List StoredItem),
      (∀ x ∈ storage, x.data.file_hash = h → x ∈ toDel) →
      runDeletes B storage toDel = (none, storage1) →
      ∀ x ∈ storage1, x.data.file_hash ≠ h := by
  intro toDel
  induction toDel with
  | nil =>
    intro storage storage1 hcov hrun x hx hh
    simp only [runDeletes, Prod.mk.injEq] at hrun
    obtain ⟨-, rfl⟩ := hrun
    exact absurd (hcov x hx hh) (List.not_mem_nil x)
  | cons item rest ih =>
    intro storage storage1 hcov hrun x hx
    simp only [runDeletes] at hrun
    cases hd : B.delete_item item.id with
    | error e => rw [hd] at hrun; simp at hrun
    | ok u =>
      rw [hd] at hrun
      refine ih _ _ ?_ hrun x hx
      intro y hy hyh
      have hy1 : y ∈ storage := (List.mem_filter.mp hy).1
      rcases List.mem_cons.mp (hcov y hy1 hyh) with heq | hmem
      · exfalso
        have hkeep := (List.mem_filter.mp hy).2
        rw [heq] at hkeep
        simp at hkeep
      · exact hmem

/-- Claim C1: when the Record stage succeeds on a record with a non-empty
fingerprint, storage afterwards holds exactly one record with that
fingerprint, namely the newly inserted one: the stage deletes every prior
record found for the fingerprint before inserting. Re-processing the same
byte content therefore leaves exactly one stored record. -/
theorem record_stage_dedup_invariant :
    ∀ (B : Behaviors) (ev : ExtractedEvent) (st : PState) (id : Nat)
      (st1 : PState),
      ev.data.file_hash ≠ "" →
      record_extracted_data emitToast B ev st = (.ok id, st1) →
      st1.storage.filter
          (fun item => item.data.file_hash == ev.data.file_hash)
        = [⟨id, ev.data⟩] := by
  intro B ev st id st1 hne h
  simp only [record_extracted_data, if_neg hne, emitToast] at h
  split at h
  next e storage1 heq => simp at h
  next storage1 heq =>
    split at h
    next e heq2 => simp at h
    next id1 heq2 =>
      simp only [Prod.mk.injEq, Except.ok.injEq] at h
      obtain ⟨rfl, rfl⟩ := h
      have hclear := runDeletes_clears B ev.data.file_hash
        (st.storage.filter fun item =>
          item.data.file_hash == ev.data.file_hash)
        st.storage storage1
        (fun x hx hxh => List.mem_filter.mpr ⟨hx, by simp [hxh]⟩) heq
      simp only [List.filter_cons]
      rw [if_pos (by simp)]
      congr 1
      rw [List.filter_eq_nil_iff]
      intro a ha
      simp [hclear a ha]

/-- Concrete witness for claim C1: re-processing byte content with
fingerprint "h1" under a new file id, with one prior stored record for
"h1", leaves exactly the newly inserted record for "h1". -/
theorem record_stage_dedup_invariant_witness :
    ((record_extracted_data emitToast c1B c1Ev c1St).2).storage.filter
        (fun item => item.data.file_hash == c1Ev.data.file_hash)
      = [⟨5, c1Ev.data⟩] :=
  record_stage_dedup_invariant c1B c1Ev c1St 5
    ((record_extracted_data emitToast c1B c1Ev c1St).2) (by decide) (by decide)

/-- Claim C6: the Record stage is not atomic on failure: starting from a
storage with exactly one record for fingerprint "h1", an execution in which
the deletions succeed but the insert raises ends with the stage failing and
zero stored records for "h1". -/
theorem record_stage_not_atomic_on_create_failure :
    c6St.storage.filter (fun it => it.data.file_hash == "h1")
        = [⟨3, c1Old⟩] ∧
    (record_extracted_data emitToast c6B c6Ev c6St).1
        = .error (.exn "create failed") ∧
    ((record_extracted_data emitToast c6B c6Ev c6St).2).storage.filter
        (fun it => it.data.file_hash == "h1") = [] :=
  ⟨by decide, by decide, by decide⟩

theorem retryStage_always_error {α : Type} (g : PState → Except Err α × PState)
    (e : Err) (hg : ∀ s, (g s).1 = .error e) :
    ∀ (n : Nat) (st : PState), (retryStage n g st).1 = .error e
  | 0, st => by simpa [retryStage] using hg st
  | 1, st => by simpa [retryStage] using hg st
  | n + 2, st => by
    rcases h1 : g st with ⟨r1, s1⟩
    have h2 := hg st
    rw [h1] at h2
    simp only at h2
    subst h2
    simp only [retryStage, h1]
    exact retryStage_always_error g e hg (n + 1) s1

/-- Claim C3: every step of the pipeline is configured with the same retry
policy of 3 attempts and a fixed delay of 10 time-units; under that policy
a successful attempt's result is the stage result, the delay between
consecutive attempts is always 10, and when all 3 attempts fail the last
attempt's error is propagated unchanged; the retry wrapper used by the
pipeline propagates a persistent error unchanged (so the run ends Failed
with that error). -/
theorem retry_policy_three_attempts_fixed_delay :
    (∀ p ∈ stepPolicies, p.maximum_attempts = 3 ∧ p.delay = 10) ∧
    (∀ (f : Nat → Except Err Nat) (a : Nat), f 0 = .ok a →
        retryRun ⟨3, 10⟩ f = (.ok a, [])) ∧
    (∀ (f : Nat → Except Err Nat) (e0 : Err) (a : Nat),
        f 0 = .error e0 → f 1 = .ok a →
        retryRun ⟨3, 10⟩ f = (.ok a, [10])) ∧
    (∀ (f : Nat → Except Err Nat) (e0 e1 e2 : Err),
        f 0 = .error e0 → f 1 = .error e1 → f 2 = .error e2 →
        retryRun ⟨3, 10⟩ f = (.error e2, [10, 10])) ∧
    (∀ (g : PState → Except Err Nat × PState) (st : PState) (e : Err),
        (∀ s, (g s).1 = .error e) → (retryStage 3 g st).1 = .error e) := by
  refine ⟨by decide, ?_, ?_, ?_, ?_⟩
  · intro f a h0
    simp [retryRun, retryGo, h0]
  · intro f e0 a h0 h1
    simp [retryRun, retryGo, h0, h1]
  · intro f e0 e1 e2 h0 h1 h2
    simp [retryRun, retryGo, h0, h1, h2]
  · intro g st e hg
    exact retryStage_always_error g e hg 3 st

/-- Concrete witness for claim C3: an operation failing on every attempt is
retried and its error is returned unchanged after two 10-unit waits. -/
theorem retry_policy_three_attempts_fixed_delay_witness :
    retryRun ⟨3, 10⟩ (fun _ => (.error (.exn "boom") : Except Err Nat))
      = (.error (.exn "boom"), [10, 10]) :=
  retry_policy_three_attempts_fixed_delay.2.2.2.1
    (fun _ => .error (.exn "boom")) (.exn "boom") (.exn "boom") (.exn "boom")
    rfl rfl rfl

/-- Claim C7 (evaluating the code at the claimed behavior): the downloaded
temp file is NOT removed at the terminal transition: after a successful run
it is still present in the filesystem, and likewise after a failed run; no
stage of the source deletes it. -/
theorem downloaded_temp_file_persists_after_terminal :
    (runPipeline emitToast c1B "f2" c1St).1 = .completed 5 ∧
    fsRead ((runPipeline emitToast c1B "f2" c1St).2).fs "/tmp/doc.pdf"
      = some "PDFBYTES" ∧
    (runPipeline emitToast c6B "f2" c6St).1 = .failed (.exn "create failed") ∧
    fsRead ((runPipeline emitToast c6B "f2" c6St).2).fs "/tmp/doc.pdf"
      = some "PDFBYTES" :=
  ⟨by decide, by decide, by decide, by decide⟩

theorem coreEq_refl (s : PState) : CoreEq s s := ⟨rfl, rfl, rfl, rfl⟩

theorem coreEq_trans {a b c : PState} (h1 : CoreEq a b) (h2 : CoreEq b c) :
    CoreEq a c :=
  ⟨h1.1.trans h2.1, h1.2.1.trans h2.2.1, h1.2.2.1.trans h2.2.2.1,
   h1.2.2.2.trans h2.2.2.2⟩

theorem download_file_ok (B : Behaviors) (fid filename url content : String)
    (st : PState)
    (hgf : B.get_file fid = .ok filename)
    (hrc : B.read_file_content fid = .ok url)
    (hhg : B.httpGet url = .ok content) :
    download_file emitToast B ⟨fid⟩ st =
      (.ok ⟨fid, B.tempDir ++ "/" ++ filename, filename⟩,
       { fs := fsWrite st.fs (B.tempDir ++ "/" ++ filename) content,
         storage := st.storage,
         toasts := st.toasts ++ [⟨.info, "Downloading file " ++ filename⟩],
         classifyCalls := st.classifyCalls,
         extractCalls := st.extractCalls }) := by
  simp [download_file, hgf, hrc, hhg, emitToast]

theorem parse_document_ok (B : Behaviors) (ev : FileDownloadedEvent)
    (md : String) (st : PState)
    (hap : B.aparse ev.file_path = .ok md) :
    parse_document emitToast B ev st =
      (.ok ⟨ev.file_id, ev.file_path, ev.filename, md⟩,
       { st with toasts := st.toasts
           ++ [⟨.info, "Parsing document " ++ ev.filename⟩]
           ++ [⟨.info, "Successfully parsed document " ++ ev.filename⟩] }) := by
  simp [parse_document, hap, emitToast]

theorem classify_document_ok (B : Behaviors) (ev : FileParsedEvent)
    (out : ClassifyOutcome) (st : PState)
    (hac : B.aclassify rules B.tmpName = .ok out) :
    classify_document emitToast B ev st =
      (.ok ⟨ev.file_id, ev.file_path, ev.filename, ev.markdown_content,
            out.type, out.confidence.getD 0⟩,
       { fs := fsUnlink (fsWrite st.fs B.tmpName ev.markdown_content) B.tmpName,
         storage := st.storage,
         toasts := st.toasts
           ++ [⟨.info, "Classifying document " ++ ev.filename⟩]
           ++ [⟨.info, "Document classified as " ++ out.type⟩],
         classifyCalls := st.classifyCalls ++ [rules],
         extractCalls := st.extractCalls }) := by
  simp [classify_document, hac, emitToast]

theorem extract_unknown_type_error (B : Behaviors) (ev : FileClassifiedEvent)
    (content : Bytes) (st : PState)
    (hc : fsRead st.fs ev.file_path = some content)
    (h1 : ev.document_type ≠ "10-k") (h2 : ev.document_type ≠ "10-q")
    (h3 : ev.document_type ≠ "8-k") :
    extract_data_based_on_type emitToast B ev st =
      (.error (.valueError ("Unknown document type: " ++ ev.document_type)),
       { st with toasts := st.toasts
           ++ [⟨.info, "Extracting data from " ++ ev.document_type
                 ++ " filing: " ++ ev.filename⟩]
           ++ [⟨.error, "Error extracting data from file " ++ ev.filename
                 ++ ": Unknown document type: " ++ ev.document_type⟩] }) := by
  simp [extract_data_based_on_type, hc, h1, h2, h3, emitToast]

theorem retryStage_first_ok {α : Type} (g : PState → Except Err α × PState)
    (st st1 : PState) (a : α) (h : g st = (.ok a, st1)) :
    retryStage 3 g st = (.ok a, st1) := by
  simp [retryStage, h]

theorem retryStage_error_inv {α : Type} (g : PState → Except Err α × PState)
    (e : Err) (I : PState → Prop)
    (hg : ∀ s, I s → (g s).1 = .error e ∧ CoreEq ((g s).2) s ∧ I ((g s).2)) :
    ∀ (n : Nat) (st : PState), I st →
      (retryStage n g st).1 = .error e ∧ CoreEq ((retryStage n g st).2) st
  | 0, st, hI => by
    obtain ⟨a, b, -⟩ := hg st hI
    simpa [retryStage] using And.intro a b
  | 1, st, hI => by
    obtain ⟨a, b, -⟩ := hg st hI
    simpa [retryStage] using And.intro a b
  | n + 2, st, hI => by
    rcases h1 : g st with ⟨r1, s1⟩
    obtain ⟨h2, h3, h4⟩ := hg st hI
    rw [h1] at h2 h3 h4
    simp only at h2 h3 h4
    subst h2
    simp only [retryStage, h1]
    obtain ⟨h5, h6⟩ := retryStage_error_inv g e I hg (n + 1) s1 h4
    exact ⟨h5, coreEq_trans h6 h3⟩

/-- Claim C2: when the classifier labels a document with a type outside the
recognized set, the Extract stage fails with the "unknown document type"
ValueError without invoking any extraction agent (the ghost extractCalls
log is unchanged), the error survives the retry wrapper, the run ends
Failed with exactly that error, and storage is unchanged (no record is
stored for the run). -/
theorem unknown_document_type_fails_run :
    ∀ (B : Behaviors) (fid filename url content md dt : String)
      (conf : Option Rat) (st : PState),
      B.get_file fid = .ok filename →
      B.read_file_content fid = .ok url →
      B.httpGet url = .ok content →
      B.aparse (B.tempDir ++ "/" ++ filename) = .ok md →
      B.aclassify rules B.tmpName = .ok ⟨dt, conf⟩ →
      B.tmpName ≠ B.tempDir ++ "/" ++ filename →
      dt ≠ "10-k" → dt ≠ "10-q" → dt ≠ "8-k" →
      (runPipeline emitToast B fid st).1
          = .failed (.valueError ("Unknown document type: " ++ dt)) ∧
      ((runPipeline emitToast B fid st).2).storage = st.storage ∧
      ((runPipeline emitToast B fid st).2).extractCalls = st.extractCalls := by
  intro B fid filename url content md dt conf st hgf hrc hhg hap hac htmp h1 h2 h3
  obtain ⟨stD, hR1, hDfs, hDsto, hDec⟩ :
      ∃ stD : PState,
        retryStage 3 (download_file emitToast B ⟨fid⟩) st
          = (.ok ⟨fid, B.tempDir ++ "/" ++ filename, filename⟩, stD)
        ∧ stD.fs = fsWrite st.fs (B.tempDir ++ "/" ++ filename) content
        ∧ stD.storage = st.storage
        ∧ stD.extractCalls = st.extractCalls :=
    ⟨_, retryStage_first_ok _ _ _ _
        (download_file_ok B fid filename url content st hgf hrc hhg),
     rfl, rfl, rfl⟩
  obtain ⟨stP, hR2, hPfs, hPsto, hPec⟩ :
      ∃ stP : PState,
        retryStage 3 (parse_document emitToast B
            ⟨fid, B.tempDir ++ "/" ++ filename, filename⟩) stD
          = (.ok ⟨fid, B.tempDir ++ "/" ++ filename, filename, md⟩, stP)
        ∧ stP.fs = stD.fs ∧ stP.storage = stD.storage
        ∧ stP.extractCalls = stD.extractCalls :=
    ⟨_, retryStage_first_ok _ _ _ _
        (parse_document_ok B ⟨fid, B.tempDir ++ "/" ++ filename, filename⟩
          md stD hap),
     rfl, rfl, rfl⟩
  obtain ⟨stC, hR3, hCfs, hCsto, hCec⟩ :
      ∃ stC : PState,
        retryStage 3 (classify_document emitToast B
            ⟨fid, B.tempDir ++ "/" ++ filename, filename, md⟩) stP
          = (.ok ⟨fid, B.tempDir ++ "/" ++ filename, filename, md, dt,
              conf.getD 0⟩, stC)
        ∧ stC.fs = fsUnlink (fsWrite stP.fs B.tmpName md) B.tmpName
        ∧ stC.storage = stP.storage
        ∧ stC.extractCalls = stP.extractCalls :=
    ⟨_, retryStage_first_ok _ _ _ _
        (classify_document_ok B
          ⟨fid, B.tempDir ++ "/" ++ filename, filename, md⟩ ⟨dt, conf⟩
          stP hac),
     rfl, rfl, rfl⟩
  have hIstC : fsRead stC.fs (B.tempDir ++ "/" ++ filename) = some content := by
    rw [hCfs, fsRead_fsUnlink_other _ _ _ (Ne.symm htmp),
        fsRead_fsWrite_other _ _ _ _ (Ne.symm htmp), hPfs, hDfs,
        fsRead_fsWrite_self]
  have hIg : ∀ s, fsRead s.fs (B.tempDir ++ "/" ++ filename) = some content →
      (extract_data_based_on_type emitToast B
        ⟨fid, B.tempDir ++ "/" ++ filename, filename, md, dt,
         conf.getD 0⟩ s).1
        = .error (.valueError ("Unknown document type: " ++ dt)) ∧
      CoreEq ((extract_data_based_on_type emitToast B
        ⟨fid, B.tempDir ++ "/" ++ filename, filename, md, dt,
         conf.getD 0⟩ s).2) s ∧
      fsRead ((extract_data_based_on_type emitToast B
        ⟨fid, B.tempDir ++ "/" ++ filename, filename, md, dt,
         conf.getD 0⟩ s).2).fs (B.tempDir ++ "/" ++ filename)
        = some content := by
    intro s hs
    have hx := extract_unknown_type_error B
      ⟨fid, B.tempDir ++ "/" ++ filename, filename, md, dt, conf.getD 0⟩
      content s hs h1 h2 h3
    rw [hx]
    exact ⟨rfl, ⟨rfl, rfl, rfl, rfl⟩, hs⟩
  obtain ⟨hE1, hE2⟩ := retryStage_error_inv
    (extract_data_based_on_type emitToast B
      ⟨fid, B.tempDir ++ "/" ++ filename, filename, md, dt, conf.getD 0⟩)
    (.valueError ("Unknown document type: " ++ dt))
    (fun s => fsRead s.fs (B.tempDir ++ "/" ++ filename) = some content)
    hIg 3 stC hIstC
  rcases hre : retryStage 3
      (extract_data_based_on_type emitToast B
        ⟨fid, B.tempDir ++ "/" ++ filename, filename, md, dt, conf.getD 0⟩)
      stC with ⟨rE, stE⟩
  rw [hre] at hE1 hE2
  simp only at hE1 hE2
  subst hE1
  have hmain : runPipeline emitToast B fid st
      = (.failed (.valueError ("Unknown document type: " ++ dt)), stE) := by
    simp only [runPipeline, run_file, stepThen, hR1, hR2, hR3, hre]
  rw [hmain]
  exact ⟨rfl, hE2.2.1.trans (hCsto.trans (hPsto.trans hDsto)),
    hE2.2.2.2.trans (hCec.trans (hPec.trans hDec))⟩

/-- Concrete witness for claim C2: with the classifier returning
"unknown-form", the run fails with the unknown-document-type error, storage
is unchanged and no extraction agent is called. -/
theorem unknown_document_type_fails_run_witness :
    (runPipeline emitToast c2B "f1" c1St).1
        = .failed (.valueError ("Unknown document type: " ++ "unknown-form")) ∧
    ((runPipeline emitToast c2B "f1" c1St).2).storage = c1St.storage ∧
    ((runPipeline emitToast c2B "f1" c1St).2).extractCalls
        = c1St.extractCalls :=
  unknown_document_type_fails_run c2B "f1" "doc.pdf" "u" "PDFBYTES" "md"
    "unknown-form" (some 1) c1St (by decide) (by decide) (by decide)
    (by decide) (by decide) (by decide) (by decide) (by decide) (by decide)

theorem coreEq_symm {a b : PState} (h : CoreEq a b) : CoreEq b a :=
  ⟨h.1.symm, h.2.1.symm, h.2.2.1.symm, h.2.2.2.symm⟩

theorem ToastOnly.fs_eq {e : Emit} (h : ToastOnly e) (t : UIToast)
    (s : PState) : (e t s).fs = s.fs := (h t s).1

theorem ToastOnly.storage_eq {e : Emit} (h : ToastOnly e) (t : UIToast)
    (s : PState) : (e t s).storage = s.storage := (h t s).2.1

theorem ToastOnly.classifyCalls_eq {e : Emit} (h : ToastOnly e) (t : UIToast)
    (s : PState) : (e t s).classifyCalls = s.classifyCalls := (h t s).2.2.1

theorem ToastOnly.extractCalls_eq {e : Emit} (h : ToastOnly e) (t : UIToast)
    (s : PState) : (e t s).extractCalls = s.extractCalls := (h t s).2.2.2

theorem emit1_coreEq {e1 e2 : Emit} (h1 : ToastOnly e1) (h2 : ToastOnly e2)
    {s s1 : PState} (h : CoreEq s s1) (ta tb : UIToast) :
    CoreEq (e1 ta s) (e2 tb s1) :=
  coreEq_trans (h1 _ _) (coreEq_trans h (coreEq_symm (h2 _ _)))

theorem emit2_coreEq {e1 e2 : Emit} (h1 : ToastOnly e1) (h2 : ToastOnly e2)
    {s s1 : PState} (h : CoreEq s s1) (ta tb tc td : UIToast) :
    CoreEq (e1 ta (e1 tb s)) (e2 tc (e2 td s1)) :=
  coreEq_trans (h1 _ _) (coreEq_trans (h1 _ _) (coreEq_trans h
    (coreEq_symm (coreEq_trans (h2 _ _) (h2 _ _)))))

theorem download_file_coreEq (e1 e2 : Emit) (h1 : ToastOnly e1)
    (h2 : ToastOnly e2) (B : Behaviors) (ev : DownloadFileEvent)
    (s s1 : PState) (h : CoreEq s s1) :
    (download_file e1 B ev s).1 = (download_file e2 B ev s1).1 ∧
    CoreEq ((download_file e1 B ev s).2) ((download_file e2 B ev s1).2) := by
  obtain ⟨hfs, hsto, hcc, hec⟩ := h
  cases hg : B.get_file ev.file_id with
  | error e =>
    simp only [download_file, hg]
    exact ⟨trivial, emit1_coreEq h1 h2 ⟨hfs, hsto, hcc, hec⟩ _ _⟩
  | ok filename =>
    cases hr : B.read_file_content ev.file_id with
    | error e =>
      simp only [download_file, hg, hr]
      exact ⟨trivial, emit1_coreEq h1 h2 ⟨hfs, hsto, hcc, hec⟩ _ _⟩
    | ok url =>
      cases hh : B.httpGet url with
      | error e =>
        simp only [download_file, hg, hr, hh]
        exact ⟨trivial, emit2_coreEq h1 h2 ⟨hfs, hsto, hcc, hec⟩ _ _ _ _⟩
      | ok content =>
        simp only [download_file, hg, hr, hh]
        refine ⟨trivial, ?_, ?_, ?_, ?_⟩
        · simp only [h1.fs_eq, h2.fs_eq, hfs]
        · simp only [h1.storage_eq, h2.storage_eq, hsto]
        · simp only [h1.classifyCalls_eq, h2.classifyCalls_eq, hcc]
        · simp only [h1.extractCalls_eq, h2.extractCalls_eq, hec]

theorem parse_document_coreEq (e1 e2 : Emit) (h1 : ToastOnly e1)
    (h2 : ToastOnly e2) (B : Behaviors) (ev : FileDownloadedEvent)
    (s s1 : PState) (h : CoreEq s s1) :
    (parse_document e1 B ev s).1 = (parse_document e2 B ev s1).1 ∧
    CoreEq ((parse_document e1 B ev s).2) ((parse_document e2 B ev s1).2) := by
  obtain ⟨hfs, hsto, hcc, hec⟩ := h
  cases hp : B.aparse ev.file_path with
  | error e =>
    simp only [parse_document, hp]
    exact ⟨trivial, emit2_coreEq h1 h2 ⟨hfs, hsto, hcc, hec⟩ _ _ _ _⟩
  | ok md =>
    simp only [parse_document, hp]
    exact ⟨trivial, emit2_coreEq h1 h2 ⟨hfs, hsto, hcc, hec⟩ _ _ _ _⟩

theorem classify_document_coreEq (e1 e2 : Emit) (h1 : ToastOnly e1)
    (h2 : ToastOnly e2) (B : Behaviors) (ev : FileParsedEvent)
    (s s1 : PState) (h : CoreEq s s1) :
    (classify_document e1 B ev s).1 = (classify_document e2 B ev s1).1 ∧
    CoreEq ((classify_document e1 B ev s).2)
      ((classify_document e2 B ev s1).2) := by
  obtain ⟨hfs, hsto, hcc, hec⟩ := h
  cases hc : B.aclassify rules B.tmpName with
  | error e =>
    simp only [classify_document, hc]
    refine ⟨trivial, ?_, ?_, ?_, ?_⟩ <;>
      simp only [h1.fs_eq, h2.fs_eq, h1.storage_eq, h2.storage_eq,
        h1.classifyCalls_eq, h2.classifyCalls_eq, h1.extractCalls_eq,
        h2.extractCalls_eq, hfs, hsto, hcc, hec]
  | ok out =>
    simp only [classify_document, hc]
    refine ⟨trivial, ?_, ?_, ?_, ?_⟩ <;>
      simp only [h1.fs_eq, h2.fs_eq, h1.storage_eq, h2.storage_eq,
        h1.classifyCalls_eq, h2.classifyCalls_eq, h1.extractCalls_eq,
        h2.extractCalls_eq, hfs, hsto, hcc, hec]

theorem extract_data_based_on_type_coreEq (e1 e2 : Emit) (h1 : ToastOnly e1)
    (h2 : ToastOnly e2) (B : Behaviors) (ev : FileClassifiedEvent)
    (s s1 : PState) (h : CoreEq s s1) :
    (extract_data_based_on_type e1 B ev s).1
      = (extract_data_based_on_type e2 B ev s1).1 ∧
    CoreEq ((extract_data_based_on_type e1 B ev s).2)
      ((extract_data_based_on_type e2 B ev s1).2) := by
  obtain ⟨hfs, hsto, hcc, hec⟩ := h
  cases hfr : fsRead s1.fs ev.file_path with
  | none =>
    simp only [extract_data_based_on_type, hfs, hfr]
    refine ⟨trivial, ?_, ?_, ?_, ?_⟩ <;>
          simp only [h1.fs_eq, h2.fs_eq, h1.storage_eq, h2.storage_eq,
            h1.classifyCalls_eq, h2.classifyCalls_eq, h1.extractCalls_eq,
            h2.extractCalls_eq, hfs, hsto, hcc, hec]
  | some c =>
    by_cases hk : ev.document_type = "10-k"
    · cases he : B.aextract_10k ⟨ev.markdown_content, ev.filename⟩ with
      | error e =>
        simp only [extract_data_based_on_type, hfs, hfr]
        simp only [if_pos hk]
        simp only [he]
        refine ⟨trivial, ?_, ?_, ?_, ?_⟩ <;>
          simp only [h1.fs_eq, h2.fs_eq, h1.storage_eq, h2.storage_eq,
            h1.classifyCalls_eq, h2.classifyCalls_eq, h1.extractCalls_eq,
            h2.extractCalls_eq, hfs, hsto, hcc, hec]
      | ok raw =>
        cases hv : B.validate_10k raw with
        | error e =>
          simp only [extract_data_based_on_type, hfs, hfr]
          simp only [if_pos hk]
          simp only [he, hv]
          refine ⟨trivial, ?_, ?_, ?_, ?_⟩ <;>
          simp only [h1.fs_eq, h2.fs_eq, h1.storage_eq, h2.storage_eq,
            h1.classifyCalls_eq, h2.classifyCalls_eq, h1.extractCalls_eq,
            h2.extractCalls_eq, hfs, hsto, hcc, hec]
        | ok form =>
          simp only [extract_data_based_on_type, hfs, hfr]
          simp only [if_pos hk]
          simp only [he, hv]
          refine ⟨trivial, ?_, ?_, ?_, ?_⟩ <;>
          simp only [h1.fs_eq, h2.fs_eq, h1.storage_eq, h2.storage_eq,
            h1.classifyCalls_eq, h2.classifyCalls_eq, h1.extractCalls_eq,
            h2.extractCalls_eq, hfs, hsto, hcc, hec]
    · by_cases hq : ev.document_type = "10-q"
      · cases he : B.aextract_10q ⟨ev.markdown_content, ev.filename⟩ with
        | error e =>
          simp only [extract_data_based_on_type, hfs, hfr]
          simp only [if_neg hk, if_pos hq]
          simp only [he]
          refine ⟨trivial, ?_, ?_, ?_, ?_⟩ <;>
          simp only [h1.fs_eq, h2.fs_eq, h1.storage_eq, h2.storage_eq,
            h1.classifyCalls_eq, h2.classifyCalls_eq, h1.extractCalls_eq,
            h2.extractCalls_eq, hfs, hsto, hcc, hec]
        | ok raw =>
          cases hv : B.validate_10q raw with
          | error e =>
            simp only [extract_data_based_on_type, hfs, hfr]
            simp only [if_neg hk, if_pos hq]
            simp only [he, hv]
            refine ⟨trivial, ?_, ?_, ?_, ?_⟩ <;>
          simp only [h1.fs_eq, h2.fs_eq, h1.storage_eq, h2.storage_eq,
            h1.classifyCalls_eq, h2.classifyCalls_eq, h1.extractCalls_eq,
            h2.extractCalls_eq, hfs, hsto, hcc, hec]
          | ok form =>
            simp only [extract_data_based_on_type, hfs, hfr]
            simp only [if_neg hk, if_pos hq]
            simp only [he, hv]
            refine ⟨trivial, ?_, ?_, ?_, ?_⟩ <;>
          simp only [h1.fs_eq, h2.fs_eq, h1.storage_eq, h2.storage_eq,
            h1.classifyCalls_eq, h2.classifyCalls_eq, h1.extractCalls_eq,
            h2.extractCalls_eq, hfs, hsto, hcc, hec]
      · by_cases h8 : ev.document_type = "8-k"
        · cases he : B.aextract_8k ⟨ev.markdown_content, ev.filename⟩ with
          | error e =>
            simp only [extract_data_based_on_type, hfs, hfr]
            simp only [if_neg hk, if_neg hq, if_pos h8]
            simp only [he]
            refine ⟨trivial, ?_, ?_, ?_, ?_⟩ <;>
          simp only [h1.fs_eq, h2.fs_eq, h1.storage_eq, h2.storage_eq,
            h1.classifyCalls_eq, h2.classifyCalls_eq, h1.extractCalls_eq,
            h2.extractCalls_eq, hfs, hsto, hcc, hec]
          | ok raw =>
            cases hv : B.validate_8k raw with
            | error e =>
              simp only [extract_data_based_on_type, hfs, hfr]
              simp only [if_neg hk, if_neg hq, if_pos h8]
              simp only [he, hv]
              refine ⟨trivial, ?_, ?_, ?_, ?_⟩ <;>
          simp only [h1.fs_eq, h2.fs_eq, h1.storage_eq, h2.storage_eq,
            h1.classifyCalls_eq, h2.classifyCalls_eq, h1.extractCalls_eq,
            h2.extractCalls_eq, hfs, hsto, hcc, hec]
            | ok form =>
              simp only [extract_data_based_on_type, hfs, hfr]
              simp only [if_neg hk, if_neg hq, if_pos h8]
              simp only [he, hv]
              refine ⟨trivial, ?_, ?_, ?_, ?_⟩ <;>
          simp only [h1.fs_eq, h2.fs_eq, h1.storage_eq, h2.storage_eq,
            h1.classifyCalls_eq, h2.classifyCalls_eq, h1.extractCalls_eq,
            h2.extractCalls_eq, hfs, hsto, hcc, hec]
        · simp only [extract_data_based_on_type, hfs, hfr]
          simp only [if_neg hk, if_neg hq, if_neg h8]
          refine ⟨trivial, ?_, ?_, ?_, ?_⟩ <;>
          simp only [h1.fs_eq, h2.fs_eq, h1.storage_eq, h2.storage_eq,
            h1.classifyCalls_eq, h2.classifyCalls_eq, h1.extractCalls_eq,
            h2.extractCalls_eq, hfs, hsto, hcc, hec]

theorem record_extracted_data_coreEq (e1 e2 : Emit) (h1 : ToastOnly e1)
    (h2 : ToastOnly e2) (B : Behaviors) (ev : ExtractedEvent)
    (s s1 : PState) (h : CoreEq s s1) :
    (record_extracted_data e1 B ev s).1
      = (record_extracted_data e2 B ev s1).1 ∧
    CoreEq ((record_extracted_data e1 B ev s).2)
      ((record_extracted_data e2 B ev s1).2) := by
  obtain ⟨hfs, hsto, hcc, hec⟩ := h
  by_cases hh : ev.data.file_hash = ""
  · simp only [record_extracted_data, if_pos hh, h1.storage_eq,
      h2.storage_eq, hsto]
    cases hc : B.create_item s1.storage with
    | error e =>
      simp only [hc]
      refine ⟨trivial, ?_, ?_, ?_, ?_⟩ <;>
        simp only [h1.fs_eq, h2.fs_eq, h1.storage_eq, h2.storage_eq,
          h1.classifyCalls_eq, h2.classifyCalls_eq, h1.extractCalls_eq,
          h2.extractCalls_eq, hfs, hsto, hcc, hec]
    | ok id =>
      simp only [hc]
      refine ⟨trivial, ?_, ?_, ?_, ?_⟩ <;>
        simp only [h1.fs_eq, h2.fs_eq, h1.storage_eq, h2.storage_eq,
          h1.classifyCalls_eq, h2.classifyCalls_eq, h1.extractCalls_eq,
          h2.extractCalls_eq, hfs, hsto, hcc, hec]
  · simp only [record_extracted_data, if_neg hh, h1.storage_eq,
      h2.storage_eq, hsto]
    rcases hd : runDeletes B s1.storage
        (s1.storage.filter fun item =>
          item.data.file_hash == ev.data.file_hash) with ⟨oe, storage2⟩
    cases oe with
    | some e =>
      simp only [hd]
      refine ⟨trivial, ?_, ?_, ?_, ?_⟩ <;>
        simp only [h1.fs_eq, h2.fs_eq, h1.storage_eq, h2.storage_eq,
          h1.classifyCalls_eq, h2.classifyCalls_eq, h1.extractCalls_eq,
          h2.extractCalls_eq, hfs, hsto, hcc, hec]
    | none =>
      simp only [hd]
      cases hc : B.create_item storage2 with
      | error e =>
        simp only [hc]
        refine ⟨trivial, ?_, ?_, ?_, ?_⟩ <;>
          simp only [h1.fs_eq, h2.fs_eq, h1.storage_eq, h2.storage_eq,
            h1.classifyCalls_eq, h2.classifyCalls_eq, h1.extractCalls_eq,
            h2.extractCalls_eq, hfs, hsto, hcc, hec]
      | ok id =>
        simp only [hc]
        refine ⟨trivial, ?_, ?_, ?_, ?_⟩ <;>
          simp only [h1.fs_eq, h2.fs_eq, h1.storage_eq, h2.storage_eq,
            h1.classifyCalls_eq, h2.classifyCalls_eq, h1.extractCalls_eq,
            h2.extractCalls_eq, hfs, hsto, hcc, hec]

theorem retryStage_coreEq {α : Type} (g1 g2 : PState → Except Err α × PState)
    (hg : ∀ s s1, CoreEq s s1 →
      (g1 s).1 = (g2 s1).1 ∧ CoreEq ((g1 s).2) ((g2 s1).2)) :
    ∀ (n : Nat) (s s1 : PState), CoreEq s s1 →
      (retryStage n g1 s).1 = (retryStage n g2 s1).1 ∧
      CoreEq ((retryStage n g1 s).2) ((retryStage n g2 s1).2)
  | 0, s, s1, h => by simpa [retryStage] using hg s s1 h
  | 1, s, s1, h => by simpa [retryStage] using hg s s1 h
  | n + 2, s, s1, h => by
    obtain ⟨hh1, hh2⟩ := hg s s1 h
    rcases ha : g1 s with ⟨r1, t1⟩
    rcases hb : g2 s1 with ⟨r2, t2⟩
    rw [ha, hb] at hh1 hh2
    simp only at hh1 hh2
    subst hh1
    cases r1 with
    | ok a =>
      simp only [retryStage, ha, hb]
      exact ⟨trivial, hh2⟩
    | error e =>
      simp only [retryStage, ha, hb]
      exact retryStage_coreEq g1 g2 hg (n + 1) t1 t2 hh2

theorem stepThen_coreEq {α : Type} {r1 r2 : Except Err α × PState}
    {k1 k2 : α → PState → RunResult × PState}
    (hr : r1.1 = r2.1) (ht : CoreEq r1.2 r2.2)
    (hk : ∀ a s s1, CoreEq s s1 →
      (k1 a s).1 = (k2 a s1).1 ∧ CoreEq ((k1 a s).2) ((k2 a s1).2)) :
    (stepThen r1 k1).1 = (stepThen r2 k2).1 ∧
    CoreEq ((stepThen r1 k1).2) ((stepThen r2 k2).2) := by
  rcases r1 with ⟨a1, s⟩
  rcases r2 with ⟨a2, s1⟩
  simp only at hr ht
  subst hr
  cases a1 with
  | error e => exact ⟨rfl, ht⟩
  | ok a => simpa only [stepThen] using hk a s s1 ht

/-- Claim C10: progress emission is observability-only: for any two
emission functions that at most change the toast stream (in particular the
real emitter and the one that drops every emission), any collaborator
behaviors and any core-equal start states, the pipeline reaches the same
terminal outcome (same stored-record id on success, same terminal error on
failure) and the same filesystem, storage and collaborator-call logs. -/
theorem toast_emission_noninterference :
    ∀ (e1 e2 : Emit), ToastOnly e1 → ToastOnly e2 →
    ∀ (B : Behaviors) (fid : String) (s s1 : PState), CoreEq s s1 →
      (runPipeline e1 B fid s).1 = (runPipeline e2 B fid s1).1 ∧
      CoreEq ((runPipeline e1 B fid s).2) ((runPipeline e2 B fid s1).2) := by
  intro e1 e2 h1 h2 B fid s s1 h
  simp only [runPipeline, run_file]
  have hd := retryStage_coreEq (download_file e1 B ⟨fid⟩)
    (download_file e2 B ⟨fid⟩)
    (fun s s1 h => download_file_coreEq e1 e2 h1 h2 B ⟨fid⟩ s s1 h) 3 s s1 h
  refine stepThen_coreEq hd.1 hd.2 ?_
  intro ev2 u u1 hu
  have hp := retryStage_coreEq (parse_document e1 B ev2)
    (parse_document e2 B ev2)
    (fun s s1 h => parse_document_coreEq e1 e2 h1 h2 B ev2 s s1 h) 3 u u1 hu
  refine stepThen_coreEq hp.1 hp.2 ?_
  intro ev3 v v1 hv
  have hc := retryStage_coreEq (classify_document e1 B ev3)
    (classify_document e2 B ev3)
    (fun s s1 h => classify_document_coreEq e1 e2 h1 h2 B ev3 s s1 h) 3 v v1 hv
  refine stepThen_coreEq hc.1 hc.2 ?_
  intro ev4 w w1 hw
  have hx := retryStage_coreEq (extract_data_based_on_type e1 B ev4)
    (extract_data_based_on_type e2 B ev4)
    (fun s s1 h => extract_data_based_on_type_coreEq e1 e2 h1 h2 B ev4 s s1 h)
    3 w w1 hw
  refine stepThen_coreEq hx.1 hx.2 ?_
  intro ev5 x x1 hx1
  have hrec := retryStage_coreEq (record_extracted_data e1 B ev5)
    (record_extracted_data e2 B ev5)
    (fun s s1 h => record_extracted_data_coreEq e1 e2 h1 h2 B ev5 s s1 h)
    3 x x1 hx1
  refine stepThen_coreEq hrec.1 hrec.2 ?_
  intro id y y1 hy
  exact ⟨rfl, hy⟩

/-- Concrete witness for claim C10: running the pipeline with the real
emitter and with all emissions dropped yields the same terminal outcome. -/
theorem toast_emission_noninterference_witness :
    (runPipeline emitToast c1B "f2" c1St).1
      = (runPipeline (fun _ s => s) c1B "f2" c1St).1 :=
  (toast_emission_noninterference emitToast (fun _ s => s)
    (fun _ _ => ⟨rfl, rfl, rfl, rfl⟩) (fun _ _ => ⟨rfl, rfl, rfl, rfl⟩)
    c1B "f2" c1St c1St ⟨rfl, rfl, rfl, rfl⟩).1

end ClassifySec
